import Mathlib

/-!
Verification of the BQ35100 fuel-gauge protocol driver
(src/drivers/sensor/ltc4150/ltc4150.c, bq35100 part).

The driver talks to the chip through byte-oriented i2c primitives and keeps a
small amount of cached state per device handle (`security_mode`,
`gauge_enabled`).  We embed the driver functions as Lean functions over an
explicit device-handle state (`DState`) and an oracle (`Device`) that supplies
the responses of the physical chip to each bus transaction, in the order the
driver issues them.  Every bus transaction is also recorded in a trace so that
"no bus activity" / "these writes happened in this order" properties can be
stated.  `k_sleep` calls are timing only and have no effect on the modelled
state, so they are not represented.

Machine integers are modelled as `ℕ` / `ℤ` with explicit `% 2^w` at the points
where the C code truncates (`uint8_t` assignment, `(uint16_t)` casts, `size_t`
wrap-around of negative `int` expressions).  C functions whose loops can run
forever take an explicit `fuel` argument and return `none` when the fuel is
exhausted; theorems either supply provably sufficient fuel or prove that no
fuel suffices (non-termination).

The project header `bq35100.h` is not part of the source tree (only the `.c`
file is); the numeric values of the register/subcommand constants it declares
are therefore modelled from the spec.  No claim below depends on the numeric
value of any of these constants, only on how the `.c` code uses them.
-/

/-- Zephyr errno value 5; the driver reports errors as `-EIO` = -5. -/
def EIO_errno : ℤ := 5

/-- Modelled from the spec: `bq35100_security_mode_t` of the missing
`bq35100.h`.  The spec fixes the decode of the status register's 2-bit
security field (bits 14:13) as `00`=UNKNOWN, `01`=FULL_ACCESS, `10`=UNSEALED,
`11`=SEALED, and `bq35100_get_security_mode` assigns `(data >> 13) & 0b011`
directly to the enum, so the enum values are the field values 0..3. -/
def BQ35100_SECURITY_UNKNOWN : ℤ := 0

/-- Modelled from the spec: see `BQ35100_SECURITY_UNKNOWN`. -/
def BQ35100_SECURITY_FULL_ACCESS : ℤ := 1

/-- Modelled from the spec: see `BQ35100_SECURITY_UNKNOWN`. -/
def BQ35100_SECURITY_UNSEALED : ℤ := 2

/-- Modelled from the spec: see `BQ35100_SECURITY_UNKNOWN`. -/
def BQ35100_SECURITY_SEALED : ℤ := 3

/-- Modelled from the spec: the known default 32-bit unseal code of
`bq35100.h`, written as two 16-bit subcommand halves.  The numeric value is
not in src/; no claim depends on it, only on the two halves being written. -/
def BQ35100_DEFAULT_SEAL_CODES : ℕ := 0x04143672

/-- Modelled from the spec: the SEALED transition subcommand of `bq35100.h`. -/
def BQ35100_CTRL_SEALED : ℕ := 0x0020

/-- Modelled from the spec: the GAUGE_START subcommand of `bq35100.h`. -/
def BQ35100_CTRL_GAUGE_START : ℕ := 0x0011

/-- Modelled from the spec: the "gauge active" bit of CONTROL_STATUS. -/
def BQ35100_GA_BIT_MASK : ℕ := 0x0001

/-- Modelled from the spec: the flash-fail bit of CONTROL_STATUS checked by
`bq35100_write_extended_data`. -/
def BQ35100_FLASHF_BIT_MASK : ℕ := 0x8000

/-- Modelled from the spec: extended-memory address of the 4-byte full-access
unlock code (read by the FULL_ACCESS transition); inside the extended-memory
window `0x4000`..`0x43FF`. -/
def BQ35100_FLASH_FULL_UNSEAL_STEP1 : ℕ := 0x4038

/-- Modelled from the spec: the ManufacturerAccess control register command
code of `bq35100.h` (first byte of the block-write header). -/
def BQ35100_CMD_MAC_CONTROL : ℕ := 0x3E

/-- Modelled from the spec: the MACDataSum register command code. -/
def BQ35100_CMD_MAC_DATA_SUM : ℕ := 0x60

/-- Modelled from the spec: the MACDataLen register command code. -/
def BQ35100_CMD_MAC_DATA_LEN : ℕ := 0x61

/-- C `size_t` conversion of the `int` expression `b - k` where `b` is a byte
value promoted to `int` (as in `data[35] - 2` of
`bq35100_read_extended_data`): negative results wrap modulo `2^64`. -/
def sizeSub (b k : ℕ) : ℕ :=
  if k ≤ b then b - k else 2 ^ 64 - (k - b)

/-- The loop of `bq35100_compute_checksum` (lines 582-597).  The loop counter
`x` is a `uint8_t` (so it wraps at 256) tested with `x <= length` against the
`size_t` argument; `checksum` is a `uint8_t` accumulator; `data` advances one
byte per iteration (reads past the end of the modelled byte list are modelled
as 0, corresponding to out-of-bounds reads the C code would perform).  The
loop is not structurally terminating — for `length ≥ 255` it never exits — so
it takes fuel and returns `none` when the fuel runs out. -/
def checksumLoop : ℕ → ℕ → ℕ → List ℕ → ℕ → Option ℕ
  | 0, _, _, _, _ => none
  | fuel + 1, x, checksum, data, length =>
    if x ≤ length then
      checksumLoop fuel ((x + 1) % 256) ((checksum + data.headD 0) % 256)
        data.tail length
    else some checksum

/-- Model of `bq35100_compute_checksum` (lines 582-597): runs `checksumLoop` from
`x = 1` with a zero accumulator and returns `0xFF - checksum` (the `uint8_t`
accumulator is ≤ 255, so no wrap occurs in the subtraction).  The non-null
`data` pointer of the C signature is the byte list itself.  `fuel` bounds the
number of loop iterations the model is allowed to observe. -/
def bq35100_compute_checksum (data : List ℕ) (length : ℕ) (fuel : ℕ) :
    Option ℕ :=
  match checksumLoop fuel 1 0 data length with
  | some checksum => some (255 - checksum)
  | none => none

/-- One-step unfolding of `checksumLoop` (for single-layer rewriting). -/
theorem checksumLoop_succ (fuel x checksum : ℕ) (data : List ℕ) (length : ℕ) :
    checksumLoop (fuel + 1) x checksum data length =
      if x ≤ length then
        checksumLoop fuel ((x + 1) % 256) ((checksum + data.headD 0) % 256)
          data.tail length
      else some checksum := rfl

/-- For `length ≥ 255` the checksum loop never exits: the `uint8_t` counter
`x` always satisfies `x ≤ 255 ≤ length`, whatever the fuel. -/
theorem checksumLoop_none_of_ge (fuel : ℕ) :
    ∀ (x checksum : ℕ) (data : List ℕ) (length : ℕ),
      x < 256 → 255 ≤ length →
      checksumLoop fuel x checksum data length = none := by
  induction fuel with
  | zero => intro x checksum data length _ _; rfl
  | succ fuel ih =>
    intro x checksum data length hx hlen
    have hcond : x ≤ length := le_trans (Nat.le_of_lt_succ hx) hlen
    simp only [checksumLoop, if_pos hcond]
    exact ih _ _ _ _ (Nat.mod_lt _ (by norm_num)) hlen

/-- For `length ≤ 254` the loop exits after `length` iterations with the
byte-sum of the first `length` bytes, reduced mod 256. -/
theorem checksumLoop_eval :
    ∀ (data : List ℕ) (x checksum length : ℕ),
      length ≤ 254 → x + data.length = length + 1 → checksum < 256 →
      checksumLoop (data.length + 1) x checksum data length =
        some ((checksum + data.sum) % 256) := by
  intro data
  induction data with
  | nil =>
    intro x checksum length hlen hx hck
    simp only [List.length_nil, Nat.add_zero] at hx
    have hgt : ¬ (x ≤ length) := by omega
    rw [List.length_nil, Nat.zero_add, checksumLoop_succ, if_neg hgt,
      List.sum_nil, Nat.add_zero, Nat.mod_eq_of_lt hck]
  | cons b rest ih =>
    intro x checksum length hlen hx hck
    simp only [List.length_cons] at hx
    have hxle : x ≤ length := by omega
    have hwrap : (x + 1) % 256 = x + 1 := by
      apply Nat.mod_eq_of_lt; omega
    rw [List.length_cons, checksumLoop_succ, if_pos hxle, List.headD_cons,
      List.tail_cons, hwrap,
      ih (x + 1) _ length hlen (by omega) (Nat.mod_lt _ (by norm_num))]
    congr 1
    simp only [List.sum_cons]
    omega

/-- Fuel monotonicity: once the checksum loop exits with a value, more fuel
gives the same value. -/
theorem checksumLoop_mono :
    ∀ (fuel fuel' x checksum : ℕ) (data : List ℕ) (length : ℕ),
      fuel ≤ fuel' →
      checksumLoop fuel x checksum data length ≠ none →
      checksumLoop fuel' x checksum data length =
        checksumLoop fuel x checksum data length := by
  intro fuel
  induction fuel with
  | zero => intro fuel' x checksum data length _ h; exact absurd rfl h
  | succ fuel ih =>
    intro fuel' x checksum data length hle h
    obtain ⟨fuel'', rfl⟩ : ∃ k, fuel' = k + 1 := by
      cases fuel' with
      | zero => omega
      | succ k => exact ⟨k, rfl⟩
    simp only [checksumLoop] at h ⊢
    by_cases hc : x ≤ length
    · simp only [if_pos hc] at h ⊢
      exact ih fuel'' _ _ _ _ (by omega) h
    · simp only [if_neg hc]

/-- One bus transaction issued by the driver, as observable on the i2c bus. -/
inductive BusEvent where
  /-- event `bq35100_control_reg_write sub`: a 2-byte little-endian write of a
  16-bit subcommand to the MAC control register. -/
  | ctrlWrite (sub : ℕ)
  /-- a 2-byte read of the CONTROL register (`bq35100_get_status`). -/
  | statusRead
  /-- the 36-byte burst read of the MAC response frame
  (`bq35100_read_extended_data`). -/
  | frameRead
  /-- a raw `i2c_write` of the given bytes (`bq35100_write_extended_data`). -/
  | macWrite (bytes : List ℕ)
  deriving DecidableEq

/-- The physical chip, as an oracle: the response it gives to the n-th bus
transaction of each kind (counted separately per kind, in issue order).
`none` / `false` model a failing i2c transfer. -/
structure Device where
  /-- the 16-bit value returned by the n-th CONTROL-register (status) read. -/
  statusAt : ℕ → Option ℕ
  /-- whether the n-th control-register subcommand write succeeds. -/
  ctrlOkAt : ℕ → Bool
  /-- the 36 bytes returned by the n-th MAC-frame burst read. -/
  frameAt : ℕ → Option (List ℕ)
  /-- whether the n-th raw `i2c_write` succeeds. -/
  macWriteOkAt : ℕ → Bool

/-- The mutable per-handle driver state (`struct bq35100_data`), plus the
bookkeeping of the oracle (per-kind transaction counters) and the observable
bus trace. -/
structure DState where
  /-- cached `bq35100_security_mode_t security_mode` (kept as `ℤ`: the code
  also assigns the negative result of a failed `bq35100_get_security_mode`
  to it). -/
  security_mode : ℤ
  /-- cached `bool gauge_enabled`. -/
  gauge_enabled : Bool
  /-- number of status reads issued so far. -/
  nStatus : ℕ
  /-- number of control-register subcommand writes issued so far. -/
  nCtrl : ℕ
  /-- number of MAC-frame burst reads issued so far. -/
  nFrame : ℕ
  /-- number of raw `i2c_write`s issued so far. -/
  nMacW : ℕ
  /-- every bus transaction issued so far, oldest first. -/
  trace : List BusEvent
  deriving DecidableEq

/-- Model of `bq35100_control_reg_write` (lines 365-384): writes the two little-endian
bytes of a 16-bit subcommand to the MAC control register, then sleeps 10 ms.
The bus-access result is assigned to a `uint8_t ret` before being returned as
`int`, so a negative bus error (-EIO = -5) is truncated to 251 and the
function never returns a negative value. -/
def bq35100_control_reg_write (dev : Device) (subcommand : ℕ) (s : DState) :
    ℤ × DState :=
  let ret : ℤ := if dev.ctrlOkAt s.nCtrl then 0 else (-EIO_errno) % 256
  (ret, { s with nCtrl := s.nCtrl + 1,
                 trace := s.trace ++ [BusEvent.ctrlWrite (subcommand % 65536)] })

/-- Model of `bq35100_get_status` (lines 979-983): a 2-byte little-endian read of the
CONTROL register through `bq35100_reg_read`.  Returns the C return code and
the 16-bit value stored through the out-pointer (0 when the bus read failed
and the out-value is unused by every caller). -/
def bq35100_get_status (dev : Device) (s : DState) : ℤ × ℕ × DState :=
  let s' := { s with nStatus := s.nStatus + 1,
                     trace := s.trace ++ [BusEvent.statusRead] }
  match dev.statusAt s.nStatus with
  | some v => (0, v % 65536, s')
  | none => (-EIO_errno, 0, s')

/-- Model of `bq35100_get_security_mode` (lines 1025-1059): reads CONTROL_STATUS and
decodes bits 14:13 (`(data >> 13) & 0b011`).  All four 2-bit values are
covered by the enum cases of the switch, so the `default: return -1` branch
is unreachable; on success the function stores the decoded mode in
`dev_data->security_mode` and returns it, on a failed status read it returns
`-EIO` without touching the cached mode. -/
def bq35100_get_security_mode (dev : Device) (s : DState) : ℤ × DState :=
  match bq35100_get_status dev s with
  | (r, v, s') =>
    if r < 0 then (-EIO_errno, s')
    else
      let m : ℤ := ((v >>> 13) &&& 3 : ℕ)
      (m, { s' with security_mode := m })

/-- The bounded polling loop of `bq35100_wait_for_status` (lines 701-715),
parameterised by the number of remaining iterations (5 at entry).  Each
iteration reads CONTROL_STATUS; a failed read returns -1 immediately, a
value with `(status & mask) == expected` returns 0, otherwise the driver
sleeps `wait_ms` and retries.  When the iterations are exhausted the
function returns -1. -/
def waitLoop (dev : Device) (expected mask : ℕ) : ℕ → DState → ℤ × DState
  | 0, s => (-1, s)
  | tries + 1, s =>
    match bq35100_get_status dev s with
    | (r, v, s') =>
      if r < 0 then (-1, s')
      else if v &&& mask = expected then (0, s')
      else waitLoop dev expected mask tries s'

/-- Model of `bq35100_wait_for_status` (lines 695-718): at most 5 status reads.
`wait_ms` only selects the sleep between attempts and does not affect the
modelled state. -/
def bq35100_wait_for_status (dev : Device) (expected mask wait_ms : ℕ)
    (s : DState) : ℤ × DState :=
  waitLoop dev expected mask 5 s

/-- The argument-validation condition of `bq35100_read_extended_data`
(line 432): `address < 0x4000 || address > 0x43FF || !buf` (the buffer
pointer is always non-null in the model). -/
def readExtInvalidArgs (address : ℕ) : Bool :=
  address < 0x4000 || 0x43FF < address

/-- The argument-validation condition of `bq35100_write_extended_data`
(line 509): `address < 0x4000 || address > 0x43FF || length < 1 ||
length > 32 || !data`. -/
def writeExtInvalidArgs (address length : ℕ) : Bool :=
  address < 0x4000 || 0x43FF < address || length < 1 || 32 < length

mutual

/-- Model of `bq35100_set_security_mode` (lines 605-685).  Requesting the mode already
cached is an immediate `return 0`; otherwise the transition is attempted in a
retry loop of 3 iterations (`setSecurityLoop`).  The function ends with an
unconditional `return 0` (line 684) whether or not the transition succeeded.
`fuel` bounds the recursion depth/loop steps of the model; every reachable
execution only needs a small amount. -/
def bq35100_set_security_mode (dev : Device) :
    ℕ → ℤ → DState → Option (ℤ × DState)
  | 0, _, _ => none
  | fuel + 1, security_mode, s =>
    if s.security_mode = security_mode then some (0, s)
    else setSecurityLoop dev fuel security_mode 3 s

/-- The `for (i = 0; (i < 3) && !success; i++)` retry loop of
`bq35100_set_security_mode`: run the transition switch, sleep 100 ms, re-read
the observed mode into the cache (note: the result of
`bq35100_get_security_mode` — which is `-EIO` on a failed status read — is
assigned to `data->security_mode`), stop on a match; when the iterations are
exhausted fall through to the final `return 0`. -/
def setSecurityLoop (dev : Device) :
    ℕ → ℤ → ℕ → DState → Option (ℤ × DState)
  | 0, _, _, _ => none
  | _ + 1, _, 0, s => some (0, s)
  | fuel + 1, security_mode, tries + 1, s =>
    match setSecuritySwitch dev fuel security_mode s with
    | none => none
    | some (Sum.inl ret) => some ret
    | some (Sum.inr s1) =>
      match bq35100_get_security_mode dev s1 with
      | (m, s2) =>
        let s3 := { s2 with security_mode := m }
        if s3.security_mode = security_mode then some (0, s3)
        else setSecurityLoop dev fuel security_mode tries s3

/-- The `switch (security_mode)` body of one `bq35100_set_security_mode`
iteration (lines 620-669).  `Sum.inl` is an early `return` out of the whole
function, `Sum.inr` falls through to the post-switch confirmation.  Notable
faithful details: the guards test `!bq35100_set_security_mode(...)`, which is
true exactly when the recursive call returned 0; `bq35100_control_reg_write`
never returns a negative value (its `uint8_t ret`), so the `!(status < 0)`
guard before the second half-code write always passes. -/
def setSecuritySwitch (dev : Device) :
    ℕ → ℤ → DState → Option (Sum (ℤ × DState) DState)
  | 0, _, _ => none
  | fuel + 1, security_mode, s =>
    if security_mode = BQ35100_SECURITY_UNKNOWN then
      some (Sum.inl (0, s))
    else if security_mode = BQ35100_SECURITY_FULL_ACCESS then
      let step1 : Option (Sum (ℤ × DState) DState) :=
        if s.security_mode = BQ35100_SECURITY_SEALED then
          match bq35100_set_security_mode dev fuel BQ35100_SECURITY_UNSEALED s
            with
          | none => none
          | some (r, s1) =>
            if r = 0 then some (Sum.inl (-EIO_errno, s1))
            else some (Sum.inr s1)
        else some (Sum.inr s)
      match step1 with
      | none => none
      | some (Sum.inl e) => some (Sum.inl e)
      | some (Sum.inr s1) =>
        match bq35100_read_extended_data dev fuel
            BQ35100_FLASH_FULL_UNSEAL_STEP1 4 s1 with
        | none => none
        | some (st, buf, s2) =>
          if st < 0 then some (Sum.inl (-EIO_errno, s2))
          else
            let full_access_codes :=
              (buf.getD 0 0) <<< 24 + (buf.getD 1 0) <<< 16 +
                (buf.getD 2 0) <<< 8 + buf.getD 3 0
            match bq35100_control_reg_write dev
                ((full_access_codes >>> 16) % 65536) s2 with
            | (st2, s3) =>
              if st2 < 0 then some (Sum.inr s3)
              else
                match bq35100_control_reg_write dev
                    (full_access_codes % 65536) s3 with
                | (_, s4) => some (Sum.inr s4)
    else if security_mode = BQ35100_SECURITY_UNSEALED then
      let step1 : Option (Sum (ℤ × DState) DState) :=
        if s.security_mode = BQ35100_SECURITY_FULL_ACCESS then
          match bq35100_set_security_mode dev fuel BQ35100_SECURITY_SEALED s
            with
          | none => none
          | some (r, s1) =>
            if r = 0 then some (Sum.inl (-EIO_errno, s1))
            else some (Sum.inr s1)
        else some (Sum.inr s)
      match step1 with
      | none => none
      | some (Sum.inl e) => some (Sum.inl e)
      | some (Sum.inr s1) =>
        match bq35100_control_reg_write dev
            ((BQ35100_DEFAULT_SEAL_CODES >>> 16) % 65536) s1 with
        | (st2, s2) =>
          if st2 < 0 then some (Sum.inr s2)
          else
            match bq35100_control_reg_write dev
                (BQ35100_DEFAULT_SEAL_CODES % 65536) s2 with
            | (_, s3) => some (Sum.inr s3)
    else if security_mode = BQ35100_SECURITY_SEALED then
      match bq35100_control_reg_write dev BQ35100_CTRL_SEALED s with
      | (_, s1) => some (Sum.inr s1)
    else
      some (Sum.inl (-EIO_errno, s))

/-- Model of `bq35100_read_extended_data` (lines 415-484).  Checks, in this order:
cached mode not UNKNOWN; address within `0x4000..0x43FF` (and non-null `buf`,
always true in the model) — both before any bus activity; then, if sealed,
the transient-unseal guard `!bq35100_set_security_mode(dev, UNSEALED)` (true
exactly when that call returned 0, which makes the guard fire and return
`-EIO` right after a successful unseal); then the MAC "open" subcommand
write, the 36-byte frame read, the address-echo check (`return -1`), the
checksum check over `data[35] - 2` bytes (an `int` expression converted to
`size_t`, so `data[35] < 2` makes the checksum loop run forever — modelled as
`none`), the copy of `data[35] - 4` bytes truncated to the caller's `length`,
and finally the mode restore whose `int` result is assigned to the `bool
success` that the function returns (so a restore that returned 0 makes the
function return 0, and a failed restore returns 1). -/
def bq35100_read_extended_data (dev : Device) :
    ℕ → ℕ → ℕ → DState → Option (ℤ × List ℕ × DState)
  | 0, _, _, _ => none
  | fuel + 1, address, length, s =>
    let previous_security_mode := s.security_mode
    if s.security_mode = BQ35100_SECURITY_UNKNOWN then
      some (-EIO_errno, [], s)
    else if readExtInvalidArgs address then
      some (-EIO_errno, [], s)
    else
      let sealStep : Option (Sum (ℤ × List ℕ × DState) DState) :=
        if s.security_mode = BQ35100_SECURITY_SEALED then
          match bq35100_set_security_mode dev fuel BQ35100_SECURITY_UNSEALED s
            with
          | none => none
          | some (r, s1) =>
            if r = 0 then some (Sum.inl (-EIO_errno, [], s1))
            else some (Sum.inr s1)
        else some (Sum.inr s)
      match sealStep with
      | none => none
      | some (Sum.inl e) => some e
      | some (Sum.inr s1) =>
        match bq35100_control_reg_write dev address s1 with
        | (rc, s2) =>
          if rc < 0 then some (-EIO_errno, [], s2)
          else
            let s3 := { s2 with nFrame := s2.nFrame + 1,
                                trace := s2.trace ++ [BusEvent.frameRead] }
            match dev.frameAt s2.nFrame with
            | none => some (-EIO_errno, [], s3)
            | some frameRaw =>
              let frame := frameRaw.map (fun b => b % 256)
              if ¬ (frame.getD 0 0 = address % 256 ∧
                    frame.getD 1 0 = (address >>> 8) % 256) then
                some (-1, [], s3)
              else
                match bq35100_compute_checksum frame
                    (sizeSub (frame.getD 35 0) 2) 256 with
                | none => none
                | some ck =>
                  if ¬ (frame.getD 34 0 = ck) then
                    some (-EIO_errno, [], s3)
                  else
                    let length_read0 := sizeSub (frame.getD 35 0) 4
                    let length_read :=
                      if length < length_read0 then length else length_read0
                    let out := (frame.drop 2).take length_read
                    if previous_security_mode ≠ s3.security_mode then
                      match bq35100_set_security_mode dev fuel
                          previous_security_mode s3 with
                      | none => none
                      | some (r2, s4) =>
                        some (if r2 ≠ 0 then 1 else 0, out, s4)
                    else some (1, out, s3)

end

/-- Model of `bq35100_write_extended_data` (lines 494-574).  Checks, in this order:
cached mode not UNKNOWN; address within `0x4000..0x43FF` and
`1 ≤ length ≤ 32` (and non-null `data`) — all before any bus activity; then
the sealed transient-unseal guard (which, as in the read path, fires exactly
when the recursive call returned 0 — and here the early exit is `return
false`, i.e. 0); the MAC "open" subcommand write; the 3+length-byte block
write `[0x3E, addr_lo, addr_hi, payload...]`; the checksum write (checksum
over `d+1`, i.e. the 2 address bytes plus payload); the length write
(`length + 4`); the status read whose FLASHF bit signals a failed flash
write; and finally the mode restore whose `int` result becomes the return
value (`int success`). -/
def bq35100_write_extended_data (dev : Device) :
    ℕ → ℕ → List ℕ → DState → Option (ℤ × DState)
  | 0, _, _, _ => none
  | fuel + 1, address, data, s =>
    let previous_security_mode := s.security_mode
    let length := data.length
    if s.security_mode = BQ35100_SECURITY_UNKNOWN then
      some (-EIO_errno, s)
    else if writeExtInvalidArgs address length then
      some (-EIO_errno, s)
    else
      let sealStep : Option (Sum (ℤ × DState) DState) :=
        if s.security_mode = BQ35100_SECURITY_SEALED then
          match bq35100_set_security_mode dev fuel BQ35100_SECURITY_UNSEALED s
            with
          | none => none
          | some (r, s1) =>
            if r = 0 then some (Sum.inl (0, s1))
            else some (Sum.inr s1)
        else some (Sum.inr s)
      match sealStep with
      | none => none
      | some (Sum.inl e) => some e
      | some (Sum.inr s1) =>
        match bq35100_control_reg_write dev address s1 with
        | (rc, s2) =>
          if rc < 0 then some (-EIO_errno, s2)
          else
            let payload := data.map (fun b => b % 256)
            let hdr := [address % 256, (address >>> 8) % 256]
            let d1 := BQ35100_CMD_MAC_CONTROL :: hdr ++ payload
            let s3 := { s2 with nMacW := s2.nMacW + 1,
                                trace := s2.trace ++ [BusEvent.macWrite d1] }
            if ¬ dev.macWriteOkAt s2.nMacW then some (-EIO_errno, s3)
            else
              match bq35100_compute_checksum (hdr ++ payload) (length + 2)
                  256 with
              | none => none
              | some ck =>
                let d2 := [BQ35100_CMD_MAC_DATA_SUM, ck]
                let s4 := { s3 with nMacW := s3.nMacW + 1,
                                    trace := s3.trace ++ [BusEvent.macWrite d2] }
                if ¬ dev.macWriteOkAt s3.nMacW then some (-EIO_errno, s4)
                else
                  let d3 := [BQ35100_CMD_MAC_DATA_LEN, (length + 4) % 256]
                  let s5 := { s4 with nMacW := s4.nMacW + 1,
                                      trace := s4.trace ++
                                        [BusEvent.macWrite d3] }
                  if ¬ dev.macWriteOkAt s4.nMacW then some (-EIO_errno, s5)
                  else
                    match bq35100_get_status dev s5 with
                    | (r, status, s6) =>
                      if r ≠ 0 then some (-EIO_errno, s6)
                      else if status &&& BQ35100_FLASHF_BIT_MASK ≠ 0 then
                        some (-EIO_errno, s6)
                      else
                        if previous_security_mode ≠ s6.security_mode then
                          match bq35100_set_security_mode dev fuel
                              previous_security_mode s6 with
                          | none => none
                          | some (r2, s7) => some (r2, s7)
                        else some (1, s6)

/-- Model of `bq35100_gauge_start` (lines 768-796): immediate success if
`gauge_enabled` is already set (no bus activity); otherwise write the
GAUGE_START subcommand (whose `< 0` failure check is dead code, see
`bq35100_control_reg_write`), then poll for the GA bit with
`bq35100_wait_for_status(dev, GA, GA, 100)`; both on timeout (with
`gauge_enabled := false`) and on confirmation (with
`gauge_enabled := true`) the function returns 0. -/
def bq35100_gauge_start (dev : Device) (s : DState) : ℤ × DState :=
  if s.gauge_enabled then (0, s)
  else
    let r1 := bq35100_control_reg_write dev BQ35100_CTRL_GAUGE_START s
    if r1.1 < 0 then (-EIO_errno, r1.2)
    else
      let r2 := bq35100_wait_for_status dev BQ35100_GA_BIT_MASK
        BQ35100_GA_BIT_MASK 100 r1.2
      if r2.1 < 0 then (0, { r2.2 with gauge_enabled := false })
      else (0, { r2.2 with gauge_enabled := true })

/-- C truncation of a positive-word assignment `(int16_t)avg`. -/
def toInt16 (z : ℤ) : ℤ := (z + 32768) % 65536 - 32768

/-- The sampling loop of `bq35100_get_raw_cal_data` (lines 1242-1267).  The
oracle pairs each loop iteration with the value the ADC-sample counter read
(`BQ35100_CMD_CAL_COUNT`) returns and the raw sample value the subsequent
command read would return at that moment; when the oracle list runs out the
C loop would simply keep polling, modelled as `none`.  Faithful details:
`adc_counter_prev` is a `uint8_t` initialised to 0 — the first counter read
is compared against 0, so it already counts as a change; the sample is
accumulated as `(buf[1] << 8) + buf[0]`, where `buf` is a `uint16_t[2]`
whose element 0 holds the whole little-endian 16-bit sample
(`bq35100_reg_read` with length 2 stores one `uint16_t` through the
pointer) and whose element 1 is *never written*: it is an indeterminate
`uint16_t` stack value, supplied to the model by the oracle `g` — `g n` is
the content an access to `buf[1]` yields during the n-th accumulation (an
execution of the program corresponds to some `g`); the loop breaks after 4
accumulated samples.  The returned pair is the accumulator and, for
specification purposes, the list of sample values (`buf[0]`) that were
accumulated. -/
def calDataLoop (g : ℕ → ℕ) :
    List (ℕ × ℕ) → ℕ → ℕ → ℤ → List ℕ → Option (ℤ × List ℕ)
  | [], _, _, _, _ => none
  | (c, sample) :: rest, adc_counter_prev, counter, avg, used =>
    if adc_counter_prev = c % 65536 then
      calDataLoop g rest adc_counter_prev counter avg used
    else
      let avg := avg + (((g counter % 65536) <<< 8) + sample % 65536 : ℕ)
      let used := used ++ [sample % 65536]
      let counter := counter + 1
      if counter = 4 then some (avg, used)
      else calDataLoop g rest (c % 256) counter avg used

/-- Model of `bq35100_get_raw_cal_data` (lines 1230-1282), specialised to its sampling
behaviour: runs the sampling loop from `adc_counter_prev = 0`,
`counter = 0`, `avg = 0`, then divides by 4 (C `/=` on `int32_t`: truncating
division) and stores the `(int16_t)` truncation through the result pointer.
`g` supplies the indeterminate content of the never-written `buf[1]` (see
`calDataLoop`).  The surrounding `bq35100_enter_cal_mode(dev, true/false)`
calls only gate the loop on bus errors and do not contribute to the
accumulated value, so they are not part of this model.  Returns the stored
result together with the accumulated sample list. -/
def bq35100_get_raw_cal_data (g : ℕ → ℕ) (reads : List (ℕ × ℕ)) :
    Option (ℤ × List ℕ) :=
  match calDataLoop g reads 0 0 0 [] with
  | none => none
  | some (avg, used) => some (toInt16 (Int.tdiv avg 4), used)

/-- An exact dyadic number `num * 2 ^ exp2`.  The IEEE float values flowing
through `bq35100_float_to_DF` are modelled as dyadic rationals: every float
operation the function performs on the claim-relevant inputs is exact (see
the doc comment of `bq35100_float_to_DF`). -/
structure Dyadic where
  /-- integer numerator. -/
  num : ℤ
  /-- power-of-two exponent of the denominator/scale. -/
  exp2 : ℤ
  deriving DecidableEq

/-- The numerator of a dyadic number rescaled to exponent `m ≤ exp2`. -/
def Dyadic.numAt (a : Dyadic) (m : ℤ) : ℤ := a.num * 2 ^ (a.exp2 - m).toNat

/-- Value comparison `a < b` of dyadic numbers, as a decidable Bool. -/
def Dyadic.ltb (a b : Dyadic) : Bool :=
  a.numAt (min a.exp2 b.exp2) < b.numAt (min a.exp2 b.exp2)

/-- Exact difference of dyadic numbers. -/
def Dyadic.sub (a b : Dyadic) : Dyadic :=
  ⟨a.numAt (min a.exp2 b.exp2) - b.numAt (min a.exp2 b.exp2),
   min a.exp2 b.exp2⟩

/-- Exact multiplication of a dyadic number by `2 ^ k`. -/
def Dyadic.mulPow2 (a : Dyadic) (k : ℤ) : Dyadic := ⟨a.num, a.exp2 + k⟩

/-- Embedding of an integer as a dyadic number. -/
def Dyadic.ofInt (n : ℤ) : Dyadic := ⟨n, 0⟩

/-- C truncation-toward-zero of a float value to an integer. -/
def Dyadic.cTrunc (a : Dyadic) : ℤ :=
  if 0 ≤ a.exp2 then a.num * 2 ^ a.exp2.toNat
  else Int.tdiv a.num (2 ^ (-a.exp2).toNat)

/-- The conversion of a float value to `uint8_t` as performed by
`data[2] = (uint8_t)tmp_val;` etc. in `bq35100_float_to_DF`.  For values
outside `[0, 256)` this conversion is undefined behaviour in C; the model
uses truncation toward zero followed by a wrap modulo 256, which is what the
common ARM/x86 code generation (float → integer → narrowing) produces. -/
def cFloatToU8 (a : Dyadic) : ℕ := (a.cTrunc % 256).toNat

/-- The `while (tmp_val < 0.5) { tmp_val *= 2; exp--; }` normalisation loop
of `bq35100_float_to_DF` (fuel-bounded; any reachable input exits after at
most a few hundred doublings). -/
def dfNormUp : ℕ → Dyadic → ℤ → Dyadic × ℤ
  | 0, t, e => (t, e)
  | f + 1, t, e =>
    if t.ltb ⟨1, -1⟩ then dfNormUp f (t.mulPow2 1) (e - 1) else (t, e)

/-- The `while (tmp_val >= 1.0) { tmp_val /= 2; exp--; }` normalisation loop
of `bq35100_float_to_DF`.  Note that the source decrements `exp` in this
halving loop as well (where a narrowing normalisation would increment it). -/
def dfNormDown : ℕ → Dyadic → ℤ → Dyadic × ℤ
  | 0, t, e => (t, e)
  | f + 1, t, e =>
    if t.ltb (Dyadic.ofInt 1) then (t, e)
    else dfNormDown f (t.mulPow2 (-1)) (e - 1)

/-- Model of `bq35100_float_to_DF` (lines 1439-1491), modelled over exact dyadic
rationals.  All float operations the function performs on the claim-relevant
inputs (copies, negation, multiplication/division by powers of two,
subtraction of small integers) are exact in IEEE binary32/64 arithmetic,
except the initial `tmp_val *= (1 + pow(2, -25))`; that product only feeds
the normalisation loops, whose resulting `exp` is unchanged by the sub-ulp
difference for the inputs considered here, and `tmp_val` is then overwritten
by `pow(2, 8 - exp) * val - 128` (note: `val`, the signed original input,
not the normalised mantissa).  Returns the 4 result bytes in memory order
`[data[0], data[1], data[2], data[3]]`. -/
def bq35100_float_to_DF (val : Dyadic) : List ℕ :=
  let mod_val : Dyadic := if val.ltb (Dyadic.ofInt 0) then ⟨-val.num, val.exp2⟩
                          else val
  let tmp0 : Dyadic := ⟨mod_val.num * (2 ^ 25 + 1), mod_val.exp2 - 25⟩
  let norm :=
    if tmp0.ltb ⟨1, -1⟩ then dfNormUp 400 tmp0 0
    else if tmp0.ltb (Dyadic.ofInt 1) then (tmp0, 0)
    else dfNormDown 400 tmp0 0
  let exp1 := norm.2
  let exp := if 127 < exp1 then 127 else if exp1 < -128 then -128 else exp1
  let tv1 : Dyadic := (val.mulPow2 (8 - exp)).sub (Dyadic.ofInt 128)
  let d2 := cFloatToU8 tv1
  let tv2 : Dyadic := (tv1.sub (Dyadic.ofInt d2)).mulPow2 8
  let d1 := cFloatToU8 tv2
  let tv3 : Dyadic := (tv2.sub (Dyadic.ofInt d1)).mulPow2 8
  let d0 := cFloatToU8 tv3
  let d2s := if val.ltb (Dyadic.ofInt 0) then d2 ||| 0x80 else d2
  let d3 := (exp + 128).toNat
  [d0, d1, d2s, d3]

/-- Each polling iteration performs at most one status read. -/
theorem waitLoop_nStatus_le (dev : Device) (expected mask : ℕ) :
    ∀ (tries : ℕ) (s : DState),
      ((waitLoop dev expected mask tries s).2).nStatus ≤ s.nStatus + tries := by
  intro tries
  induction tries with
  | zero => intro s; exact Nat.le_add_right _ _
  | succ t ih =>
    intro s
    cases h : dev.statusAt s.nStatus with
    | none =>
      simp [waitLoop, bq35100_get_status, h, EIO_errno]
    | some v =>
      by_cases hm : (v % 65536) &&& mask = expected
      · simp [waitLoop, bq35100_get_status, h, hm]
      · simp only [waitLoop, bq35100_get_status, h, hm]
        simp only [lt_irrefl, if_false, if_neg hm]
        refine le_trans (ih _) ?_
        simp
        omega

/-- If every one of the next `tries` status reads succeeds but fails the
mask test, the polling loop returns -1 after exactly `tries` reads. -/
theorem waitLoop_timeout (dev : Device) (expected mask : ℕ) :
    ∀ (tries : ℕ) (s : DState),
      (∀ n, n < tries → ∃ v, dev.statusAt (s.nStatus + n) = some v ∧
        (v % 65536) &&& mask ≠ expected) →
      (waitLoop dev expected mask tries s).1 = -1 ∧
      ((waitLoop dev expected mask tries s).2).nStatus = s.nStatus + tries := by
  intro tries
  induction tries with
  | zero => intro s _; exact ⟨rfl, rfl⟩
  | succ t ih =>
    intro s h
    obtain ⟨v, hv, hm⟩ := h 0 (Nat.succ_pos t)
    rw [Nat.add_zero] at hv
    have ih' := ih { s with nStatus := s.nStatus + 1,
                            trace := s.trace ++ [BusEvent.statusRead] } ?hyp
    case hyp =>
      intro n hn
      obtain ⟨u, hu, hmu⟩ := h (n + 1) (by omega)
      refine ⟨u, ?_, hmu⟩
      simpa [Nat.add_assoc, Nat.add_comm 1 n] using hu
    simp only [waitLoop, bq35100_get_status, hv, lt_irrefl, if_false,
      if_neg hm]
    refine ⟨ih'.1, ?_⟩
    rw [ih'.2]
    simp
    omega

/-- If the first `k` status reads succeed but fail the mask test and the
`k`-th read (0-based) succeeds and matches, the polling loop returns 0 after
exactly `k + 1` reads. -/
theorem waitLoop_match (dev : Device) (expected mask : ℕ) :
    ∀ (k tries : ℕ) (s : DState) (v : ℕ), k < tries →
      (∀ n, n < k → ∃ u, dev.statusAt (s.nStatus + n) = some u ∧
        (u % 65536) &&& mask ≠ expected) →
      dev.statusAt (s.nStatus + k) = some v →
      (v % 65536) &&& mask = expected →
      (waitLoop dev expected mask tries s).1 = 0 ∧
      ((waitLoop dev expected mask tries s).2).nStatus = s.nStatus + k + 1 := by
  intro k
  induction k with
  | zero =>
    intro tries s v hk hpre hv hm
    obtain ⟨t, rfl⟩ : ∃ t, tries = t + 1 := ⟨tries - 1, by omega⟩
    rw [Nat.add_zero] at hv
    simp [waitLoop, bq35100_get_status, hv, hm]
  | succ k ih =>
    intro tries s v hk hpre hv hm
    obtain ⟨t, rfl⟩ : ∃ t, tries = t + 1 := ⟨tries - 1, by omega⟩
    obtain ⟨u, hu, hmu⟩ := hpre 0 (Nat.succ_pos k)
    rw [Nat.add_zero] at hu
    have ih' := ih t { s with nStatus := s.nStatus + 1,
                              trace := s.trace ++ [BusEvent.statusRead] } v
      (by omega) ?hyp ?hk hm
    case hyp =>
      intro n hn
      obtain ⟨u', hu', hmu'⟩ := hpre (n + 1) (by omega)
      refine ⟨u', ?_, hmu'⟩
      simpa [Nat.add_assoc, Nat.add_comm 1 n] using hu'
    case hk =>
      simpa [Nat.add_assoc, Nat.add_comm 1 k] using hv
    simp only [waitLoop, bq35100_get_status, hu, lt_irrefl, if_false,
      if_neg hmu]
    refine ⟨ih'.1, ?_⟩
    rw [ih'.2]
    simp
    omega

/-- The polling loop only appends status-read events to the trace. -/
theorem waitLoop_trace (dev : Device) (expected mask : ℕ) :
    ∀ (tries : ℕ) (s : DState), ∃ k,
      ((waitLoop dev expected mask tries s).2).trace =
        s.trace ++ List.replicate k BusEvent.statusRead := by
  intro tries
  induction tries with
  | zero => intro s; exact ⟨0, by simp [waitLoop]⟩
  | succ t ih =>
    intro s
    cases h : dev.statusAt s.nStatus with
    | none => exact ⟨1, by simp [waitLoop, bq35100_get_status, h, EIO_errno]⟩
    | some v =>
      by_cases hm : (v % 65536) &&& mask = expected
      · exact ⟨1, by simp [waitLoop, bq35100_get_status, h, hm]⟩
      · obtain ⟨k, hk⟩ := ih { s with nStatus := s.nStatus + 1,
                                      trace := s.trace ++ [BusEvent.statusRead] }
        refine ⟨k + 1, ?_⟩
        simp only [waitLoop, bq35100_get_status, h, lt_irrefl, if_false,
          if_neg hm]
        rw [hk]
        simp [List.replicate_succ]

/-- A chip whose status register always reports UNSEALED (security bits
14:13 = `10`, i.e. value `0x4000`), acknowledges every control write, and
fails every other transfer.  It never actually transitions, so any request
for a mode other than UNSEALED fails on every confirmation re-read. -/
def devStuckUnsealed : Device :=
  ⟨fun _ => some 0x4000, fun _ => true, fun _ => none, fun _ => false⟩

/-- A fresh handle cached in UNSEALED mode with an empty trace. -/
def stateUnsealed : DState := ⟨2, false, 0, 0, 0, 0, []⟩

/-- A fresh handle cached in SEALED mode with an empty trace. -/
def stateSealed : DState := ⟨3, false, 0, 0, 0, 0, []⟩

/-- C1: the claim says that when the observed mode still differs from the
requested mode after all 3 transition attempts, `bq35100_set_security_mode`
returns a negative `SecurityError`.  The code instead falls through to the
unconditional `return 0` (line 684).  Here: the handle is cached UNSEALED
(2), SEALED (3) is requested, and the chip keeps reporting UNSEALED on all
three confirmation reads; the function performs its 3 attempts (3 subcommand
writes of the SEALED code, 3 status reads), leaves the cached mode at
UNSEALED — not the requested SEALED — and returns 0, not a negative error. -/
theorem set_security_mode_returns_zero_after_three_failures :
    bq35100_set_security_mode devStuckUnsealed 30 BQ35100_SECURITY_SEALED
        stateUnsealed =
      some (0, ⟨2, false, 3, 3, 0, 0,
        [BusEvent.ctrlWrite 0x20, BusEvent.statusRead,
         BusEvent.ctrlWrite 0x20, BusEvent.statusRead,
         BusEvent.ctrlWrite 0x20, BusEvent.statusRead]⟩) := by decide

/-- C2: the claim says a call to `bq35100_read_extended_data` that enters
with the handle SEALED and transiently unseals always restores the cached
`security_mode` to SEALED on exit, on success and error paths alike.  In the
code the transient unseal is guarded by
`!bq35100_set_security_mode(dev, UNSEALED)`, which is true exactly when that
call returned 0 — so after a *successful* unseal (the chip here honours the
unseal: the confirmation read reports UNSEALED) the function immediately
returns `-EIO`, with the cached mode left at UNSEALED (2), not the entry
value SEALED (3).  The trace shows the exit happens after the two unseal
half-code writes and the confirmation read, with no restore transition. -/
theorem read_extended_sealed_entry_exits_unsealed :
    bq35100_read_extended_data devStuckUnsealed 30 0x4000 4 stateSealed =
      some (-5, [], ⟨2, false, 1, 2, 0, 0,
        [BusEvent.ctrlWrite 0x0414, BusEvent.ctrlWrite 0x3672,
         BusEvent.statusRead]⟩) ∧
    stateSealed.security_mode = 3 := by
  exact ⟨by decide, rfl⟩

/-- C8: the claim says that for a SEALED handle a FULL_ACCESS request first
passes through UNSEALED (two unseal half-code writes) and then writes the
two halves of the full-access unlock code read from extended memory.  The
code does drive the chip through UNSEALED, but the guard
`!bq35100_set_security_mode(dev, UNSEALED)` is true exactly when the unseal
*succeeded* (returned 0), so the function then returns `-EIO` immediately:
the trace contains only the two unseal half-code writes (of
`BQ35100_DEFAULT_SEAL_CODES`) and the confirmation read — the extended-
memory read of the full-access code and the two full-access half-code
writes never happen. -/
theorem full_access_from_sealed_stops_after_unseal :
    bq35100_set_security_mode devStuckUnsealed 30 BQ35100_SECURITY_FULL_ACCESS
        stateSealed =
      some (-5, ⟨2, false, 1, 2, 0, 0,
        [BusEvent.ctrlWrite 0x0414, BusEvent.ctrlWrite 0x3672,
         BusEvent.statusRead]⟩) ∧
    0x0414 = (BQ35100_DEFAULT_SEAL_CODES >>> 16) % 65536 ∧
    0x3672 = BQ35100_DEFAULT_SEAL_CODES % 65536 := by
  exact ⟨by decide, by decide, by decide⟩

/-- The counter/sample trace of claim C3: successive calibration-counter
reads return `[5,5,6,6,7,8,8,9]` and the corresponding sample reads return
`[10,10,12,12,14,16,16,18]`. -/
def calTraceC3 : List (ℕ × ℕ) :=
  [(5, 10), (5, 10), (6, 12), (6, 12), (7, 14), (8, 16), (8, 16), (9, 18)]

/-- C3 counterexample: on the claimed trace the stored result is not 15 (the
claim expects only the samples at counter transitions 6,7,8,9, i.e.
`(12+14+16+18)/4 = 15`, to be accumulated and their mean stored).  Exhibited
at two concrete executions — two valuations of the indeterminate,
never-written `buf[1]` (zero, and an arbitrary non-zero pattern); the
amended theorem `cal_average_eval` shows no valuation whatsoever stores
15. -/
theorem cal_average_not_15 :
    (bq35100_get_raw_cal_data (fun _ => 0) calTraceC3).map Prod.fst ≠
      some 15 ∧
    (bq35100_get_raw_cal_data (fun _ => 0x5A7C) calTraceC3).map Prod.fst ≠
      some 15 := by
  exact ⟨by decide, by decide⟩

/-- C3 (amended): `adc_counter_prev` starts at 0, so the very first counter
read (5) already differs from the previous value and its sample is
accumulated; for *every* content `g` of the indeterminate, never-written
`buf[1]`, the loop consumes the samples of the first four counter
*changes* — counters 5,6,7,8 with samples 10,12,14,16 (the trailing reads
with counter 9 / sample 18 are never consumed) — accumulating
`(buf[1] << 8) + buf[0]` each time, and stores
`(int16_t)((52 + 256·Σ buf[1]-garbage) / 4)`.  That value is never 15 (so
the claim fails on every execution); when the garbage happens to be zero it
is 13, the truncated mean of the four consumed samples. -/
theorem cal_average_eval (g : ℕ → ℕ) :
    bq35100_get_raw_cal_data g calTraceC3 =
      some (toInt16 (Int.tdiv
        (52 + 256 * ((g 0 % 65536) + (g 1 % 65536) + (g 2 % 65536) +
          (g 3 % 65536) : ℕ)) 4), [10, 12, 14, 16]) ∧
    (bq35100_get_raw_cal_data g calTraceC3).map Prod.fst ≠ some 15 := by
  have heval : bq35100_get_raw_cal_data g calTraceC3 =
      some (toInt16 (Int.tdiv
        (52 + 256 * ((g 0 % 65536) + (g 1 % 65536) + (g 2 % 65536) +
          (g 3 % 65536) : ℕ)) 4), [10, 12, 14, 16]) := by
    simp only [bq35100_get_raw_cal_data, calDataLoop, calTraceC3]
    norm_num [Nat.shiftLeft_eq]
    congr 1
    ring_nf
  refine ⟨heval, ?_⟩
  rw [heval]
  have htd : Int.tdiv
      (52 + 256 * ((g 0 % 65536) + (g 1 % 65536) + (g 2 % 65536) +
        (g 3 % 65536) : ℕ)) 4 =
      13 + 64 * ((g 0 % 65536) + (g 1 % 65536) + (g 2 % 65536) +
        (g 3 % 65536) : ℕ) := by
    rw [show (52 + 256 * ((g 0 % 65536) + (g 1 % 65536) + (g 2 % 65536) +
        (g 3 % 65536) : ℕ) : ℤ) =
      4 * (13 + 64 * ((g 0 % 65536) + (g 1 % 65536) + (g 2 % 65536) +
        (g 3 % 65536) : ℕ)) by push_cast; ring]
    exact Int.mul_tdiv_cancel_left _ (by norm_num)
  intro h
  rw [Option.map_some'] at h
  have hx := Option.some.inj h
  rw [htd, toInt16] at hx
  omega

/-- Witness for C3 (amended): the evaluation instantiated at the all-zero
garbage valuation, where the stored value is the truncated mean 13. -/
theorem cal_average_eval_witness :
    bq35100_get_raw_cal_data (fun _ => 0) calTraceC3 =
      some (13, [10, 12, 14, 16]) ∧
    (bq35100_get_raw_cal_data (fun _ => 0) calTraceC3).map Prod.fst ≠
      some 15 := by
  have h := cal_average_eval (fun _ => 0)
  refine ⟨?_, h.2⟩
  rw [h.1]
  decide

/-- C9: the claim says `bq35100_float_to_DF` applied to 1.0 and to -1.0
yields 4-byte outputs that differ exactly in bit 7 of byte 2.  Because the
halving normalisation loop *decrements* `exp` (a narrowing normalisation
would increment it) and the mantissa formula uses the signed original `val`,
the mantissa byte computation goes through out-of-range float→`uint8_t`
conversions (384.0 and -640.0; undefined behaviour in C, modelled as
truncate-and-wrap, which is what common targets produce).  Both inputs then
produce the identical output `[0x00, 0x00, 0x80, 0x7F]`: byte 2 is `0x80`
for the *positive* input already, so the sign bit does not differ. -/
theorem float_to_DF_one_neg_one_identical :
    bq35100_float_to_DF (Dyadic.ofInt 1) = [0x00, 0x00, 0x80, 0x7F] ∧
    bq35100_float_to_DF (Dyadic.ofInt (-1)) = [0x00, 0x00, 0x80, 0x7F] := by
  exact ⟨by decide, by decide⟩

/-- Termination of the checksum loop does not depend on the data bytes:
for `length ≤ 254` it exits within `length + 1` steps from counter `x`. -/
theorem checksumLoop_some_of_le :
    ∀ (n x checksum : ℕ) (data : List ℕ) (length : ℕ),
      length ≤ 254 → x + n = length + 1 →
      ∃ r, checksumLoop (n + 1) x checksum data length = some r := by
  intro n
  induction n with
  | zero =>
    intro x checksum data length hlen hx
    have hgt : ¬ (x ≤ length) := by omega
    exact ⟨checksum, by rw [checksumLoop_succ, if_neg hgt]⟩
  | succ n ih =>
    intro x checksum data length hlen hx
    have hxle : x ≤ length := by omega
    have hwrap : (x + 1) % 256 = x + 1 := by
      apply Nat.mod_eq_of_lt; omega
    rw [checksumLoop_succ, if_pos hxle, hwrap]
    exact ih (x + 1) _ data.tail length hlen (by omega)

/-- C4 counterexample: the claim quantifies over *every* byte sequence, but
on a 255-byte input `bq35100_compute_checksum` never returns at all — its
`uint8_t` loop counter always satisfies `x ≤ 255 ≤ length`, so no amount of
fuel makes the loop exit. -/
theorem checksum_diverges_at_255_bytes :
    ¬ ∃ fuel r,
      bq35100_compute_checksum (List.replicate 255 0) 255 fuel = some r := by
  rintro ⟨fuel, r, h⟩
  rw [bq35100_compute_checksum,
    checksumLoop_none_of_ge fuel 1 0 (List.replicate 255 0) 255 (by norm_num)
      (le_refl 255)] at h
  exact Option.noConfusion h

/-- C4 (amended): for every byte sequence of at most 254 bytes,
`bq35100_compute_checksum` terminates and returns
`0xFF - (sum(bytes) mod 256)`; the function reads nothing but its arguments
and writes nothing (it is a pure Lean function of the byte list and length;
the value below depends only on them). -/
theorem checksum_formula_le_254 (data : List ℕ) (h : data.length ≤ 254) :
    bq35100_compute_checksum data data.length (data.length + 1) =
      some (255 - data.sum % 256) := by
  rw [bq35100_compute_checksum,
    checksumLoop_eval data 1 0 data.length h (by omega) (by norm_num)]
  simp

/-- Witness for C4: the amended theorem evaluated at the concrete byte
sequence `[1, 2, 3]`: `0xFF - (6 mod 256) = 249`. -/
theorem checksum_formula_le_254_witness :
    bq35100_compute_checksum [1, 2, 3] 3 4 = some 249 := by
  have h := checksum_formula_le_254 [1, 2, 3] (by norm_num)
  simpa using h

/-- A chip whose 36-byte MAC frame echoes address `0x4000` but carries a
`MACDataLen` byte (`data[35]`) of 0, so the driver's checksum call receives
the wrapped `size_t` length `data[35] - 2 = 2^64 - 2`. -/
def devShortLenFrame : Device :=
  ⟨fun _ => some 0x4000, fun _ => true,
   fun _ => some ([0x00, 0x40] ++ List.replicate 34 0), fun _ => false⟩

set_option maxRecDepth 4000 in
/-- C10: `bq35100_compute_checksum` terminates exactly for lengths up to
254: its loop counter is an 8-bit value compared with `x <= length`, so from
length 255 on, the condition never becomes false (first conjunct, for every
data list and length).  The second conjunct shows the consequence on the
read path (line 464): a device frame whose length byte `data[35]` is less
than 2 makes `data[35] - 2` wrap to a huge `size_t` and
`bq35100_read_extended_data` never returns, whatever the fuel. -/
theorem checksum_terminates_iff_le_254 :
    (∀ (data : List ℕ) (length : ℕ),
      (∃ fuel r, bq35100_compute_checksum data length fuel = some r) ↔
        length ≤ 254) ∧
    (∀ fuel,
      bq35100_read_extended_data devShortLenFrame fuel 0x4000 4
        stateUnsealed = none) := by
  constructor
  · intro data length
    constructor
    · rintro ⟨fuel, r, h⟩
      by_contra hgt
      rw [bq35100_compute_checksum,
        checksumLoop_none_of_ge fuel 1 0 data length (by norm_num)
          (by omega)] at h
      exact Option.noConfusion h
    · intro hle
      obtain ⟨r, hr⟩ :=
        checksumLoop_some_of_le length 1 0 data length hle (by omega)
      exact ⟨length + 1, 255 - r, by rw [bq35100_compute_checksum, hr]⟩
  · intro fuel
    cases fuel with
    | zero => rfl
    | succ n => rfl

/-- Lemma: `bq35100_control_reg_write` never returns a negative value: its bus
result is narrowed through `uint8_t ret`. -/
theorem ctrl_reg_write_fst_nonneg (dev : Device) (sub : ℕ) (s : DState) :
    ¬ ((bq35100_control_reg_write dev sub s).1 < 0) := by
  rw [bq35100_control_reg_write]
  by_cases h : dev.ctrlOkAt s.nCtrl
  · simp [h]
  · simp only [h, if_false, Bool.false_eq_true]
    decide

/-- The state effect of `bq35100_control_reg_write` on the trace. -/
theorem ctrl_reg_write_snd_trace (dev : Device) (sub : ℕ) (s : DState) :
    ((bq35100_control_reg_write dev sub s).2).trace =
      s.trace ++ [BusEvent.ctrlWrite (sub % 65536)] := rfl

/-- Lemma: `bq35100_control_reg_write` performs no status read. -/
theorem ctrl_reg_write_snd_nStatus (dev : Device) (sub : ℕ) (s : DState) :
    ((bq35100_control_reg_write dev sub s).2).nStatus = s.nStatus := rfl

/-- C6: `bq35100_wait_for_status` reads the status register at most 5 times
(first conjunct); when all 5 reads succeed but the masked value never equals
`expected` — in particular with a mask that never matches — it returns the
timeout error -1 after exactly 5 reads, never looping further (second
conjunct); and it returns success (0) the first time
`(status & mask) == expected`: if the reads before the k-th (k < 5) fail the
test and the k-th matches, it returns 0 after exactly k + 1 reads (third
conjunct). -/
theorem wait_for_status_bounded (dev : Device) (expected mask wait_ms : ℕ)
    (s : DState) :
    ((bq35100_wait_for_status dev expected mask wait_ms s).2).nStatus ≤
        s.nStatus + 5 ∧
    ((∀ n, n < 5 → ∃ v, dev.statusAt (s.nStatus + n) = some v ∧
        (v % 65536) &&& mask ≠ expected) →
      (bq35100_wait_for_status dev expected mask wait_ms s).1 = -1 ∧
      ((bq35100_wait_for_status dev expected mask wait_ms s).2).nStatus =
        s.nStatus + 5) ∧
    (∀ k v, k < 5 →
      (∀ n, n < k → ∃ u, dev.statusAt (s.nStatus + n) = some u ∧
        (u % 65536) &&& mask ≠ expected) →
      dev.statusAt (s.nStatus + k) = some v →
      (v % 65536) &&& mask = expected →
      (bq35100_wait_for_status dev expected mask wait_ms s).1 = 0 ∧
      ((bq35100_wait_for_status dev expected mask wait_ms s).2).nStatus =
        s.nStatus + k + 1) := by
  refine ⟨waitLoop_nStatus_le dev expected mask 5 s, ?_, ?_⟩
  · intro h
    exact waitLoop_timeout dev expected mask 5 s h
  · intro k v hk hpre hv hm
    exact waitLoop_match dev expected mask k 5 s v hk hpre hv hm

/-- A chip always reporting status 0: with `expected = mask = 1` the mask
test never matches. -/
def devNeverMatches : Device :=
  ⟨fun _ => some 0, fun _ => true, fun _ => none, fun _ => false⟩

/-- A chip always reporting status 1: with `expected = mask = 1` the mask
test matches on the first read. -/
def devMatchesNow : Device :=
  ⟨fun _ => some 1, fun _ => true, fun _ => none, fun _ => false⟩

/-- Witness for C6: a never-matching chip makes `bq35100_wait_for_status`
return -1 after exactly 5 reads; an immediately-matching chip makes it
return 0 after one read. -/
theorem wait_for_status_bounded_witness :
    (bq35100_wait_for_status devNeverMatches 1 1 10 stateUnsealed).1 = -1 ∧
    ((bq35100_wait_for_status devNeverMatches 1 1 10 stateUnsealed).2).nStatus
      = 5 ∧
    (bq35100_wait_for_status devMatchesNow 1 1 10 stateUnsealed).1 = 0 ∧
    ((bq35100_wait_for_status devMatchesNow 1 1 10 stateUnsealed).2).nStatus
      = 1 := by
  have h1 := (wait_for_status_bounded devNeverMatches 1 1 10 stateUnsealed).2.1
    (fun n _ => ⟨0, rfl, by decide⟩)
  have h2 := (wait_for_status_bounded devMatchesNow 1 1 10 stateUnsealed).2.2
    0 1 (by norm_num) (fun n hn => absurd hn (Nat.not_lt_zero n)) rfl
    (by decide)
  exact ⟨h1.1, h1.2, h2.1, h2.2⟩

/-- C7: `bq35100_gauge_start` (1) returns 0 with no bus activity at all when
`gauge_enabled` is already set (the returned state is the entry state); (2)
otherwise its bus activity is exactly one GAUGE_START subcommand write
followed only by status-register polls; (3) when the polling times out (all
5 reads succeed but the GA bit stays clear) it sets `gauge_enabled := false`
yet still returns 0. -/
theorem gauge_start_spec (dev : Device) (s : DState) :
    (s.gauge_enabled = true → bq35100_gauge_start dev s = (0, s)) ∧
    (s.gauge_enabled = false → ∃ k,
      ((bq35100_gauge_start dev s).2).trace =
        s.trace ++ BusEvent.ctrlWrite BQ35100_CTRL_GAUGE_START ::
          List.replicate k BusEvent.statusRead) ∧
    (s.gauge_enabled = false →
      (∀ n, n < 5 → ∃ v, dev.statusAt (s.nStatus + n) = some v ∧
        (v % 65536) &&& BQ35100_GA_BIT_MASK ≠ BQ35100_GA_BIT_MASK) →
      (bq35100_gauge_start dev s).1 = 0 ∧
      ((bq35100_gauge_start dev s).2).gauge_enabled = false) := by
  refine ⟨?_, ?_, ?_⟩
  · intro h
    simp [bq35100_gauge_start, h]
  · intro h
    simp only [bq35100_gauge_start, h, Bool.false_eq_true, if_false]
    rw [if_neg (ctrl_reg_write_fst_nonneg dev _ s)]
    obtain ⟨k, hk⟩ := waitLoop_trace dev BQ35100_GA_BIT_MASK
      BQ35100_GA_BIT_MASK 5
      ((bq35100_control_reg_write dev BQ35100_CTRL_GAUGE_START s).2)
    refine ⟨k, ?_⟩
    have hkw :
        ((bq35100_wait_for_status dev BQ35100_GA_BIT_MASK BQ35100_GA_BIT_MASK
            100
            ((bq35100_control_reg_write dev BQ35100_CTRL_GAUGE_START s).2)).2
          ).trace =
          ((bq35100_control_reg_write dev BQ35100_CTRL_GAUGE_START s).2).trace
            ++ List.replicate k BusEvent.statusRead := hk
    split
    · show ((bq35100_wait_for_status dev _ _ 100 _).2).trace = _
      rw [hkw, ctrl_reg_write_snd_trace]
      simp [BQ35100_CTRL_GAUGE_START]
    · show ((bq35100_wait_for_status dev _ _ 100 _).2).trace = _
      rw [hkw, ctrl_reg_write_snd_trace]
      simp [BQ35100_CTRL_GAUGE_START]
  · intro h hfail
    simp only [bq35100_gauge_start, h, Bool.false_eq_true, if_false]
    rw [if_neg (ctrl_reg_write_fst_nonneg dev _ s)]
    have hfail' : ∀ n, n < 5 → ∃ v,
        dev.statusAt
          (((bq35100_control_reg_write dev BQ35100_CTRL_GAUGE_START s).2
            ).nStatus + n) = some v ∧
        (v % 65536) &&& BQ35100_GA_BIT_MASK ≠ BQ35100_GA_BIT_MASK := by
      rw [ctrl_reg_write_snd_nStatus]
      exact hfail
    have ht := waitLoop_timeout dev BQ35100_GA_BIT_MASK BQ35100_GA_BIT_MASK 5
      ((bq35100_control_reg_write dev BQ35100_CTRL_GAUGE_START s).2) hfail'
    have hlt :
        (bq35100_wait_for_status dev BQ35100_GA_BIT_MASK BQ35100_GA_BIT_MASK
          100
          ((bq35100_control_reg_write dev BQ35100_CTRL_GAUGE_START s).2)).1
          < 0 := by
      have h1 := ht.1
      rw [show (bq35100_wait_for_status dev BQ35100_GA_BIT_MASK
        BQ35100_GA_BIT_MASK 100
        ((bq35100_control_reg_write dev BQ35100_CTRL_GAUGE_START s).2)).1 =
        (waitLoop dev BQ35100_GA_BIT_MASK BQ35100_GA_BIT_MASK 5
        ((bq35100_control_reg_write dev BQ35100_CTRL_GAUGE_START s).2)).1
        from rfl, h1]
      norm_num
    rw [if_pos hlt]
    exact ⟨rfl, rfl⟩

/-- A handle whose `gauge_enabled` flag is already set. -/
def stateGaugeOn : DState := ⟨2, true, 0, 0, 0, 0, []⟩

/-- Witness for C7: with the gauge already enabled the call is an identity
returning 0; with it disabled and a chip whose GA bit never sets, the call
returns 0 with `gauge_enabled` left false. -/
theorem gauge_start_spec_witness :
    bq35100_gauge_start devNeverMatches stateGaugeOn = (0, stateGaugeOn) ∧
    (bq35100_gauge_start devNeverMatches stateUnsealed).1 = 0 ∧
    ((bq35100_gauge_start devNeverMatches stateUnsealed).2).gauge_enabled =
      false := by
  have h1 := (gauge_start_spec devNeverMatches stateGaugeOn).1 rfl
  have h3 := (gauge_start_spec devNeverMatches stateUnsealed).2.2 rfl
    (fun n _ => ⟨0, rfl, by decide⟩)
  exact ⟨h1, h3.1, h3.2⟩

/-- A chip in whose extended memory address `0x4000` holds the 4 bytes
`[1,2,3,4]`: its MAC frame echoes the address, carries that payload, a
correct checksum (`0xFF - (0x00+0x40+1+2+3+4) = 181`) and length field
`4 + 4 = 8`. -/
def devAccept4000 : Device :=
  ⟨fun _ => some 0x4000, fun _ => true,
   fun _ => some ([0x00, 0x40, 1, 2, 3, 4] ++ List.replicate 28 0 ++ [181, 8]),
   fun _ => false⟩

/-- The same chip serving address `0x43FF`
(checksum `0xFF - ((0xFF+0x43+1+2+3+4) mod 256) = 179`). -/
def devAccept43FF : Device :=
  ⟨fun _ => some 0x4000, fun _ => true,
   fun _ => some ([0xFF, 0x43, 1, 2, 3, 4] ++ List.replicate 28 0 ++ [179, 8]),
   fun _ => false⟩

/-- A chip that acknowledges every write and reports a clear status register
(no FLASHF bit), so extended-memory writes complete. -/
def devWriteOk : Device :=
  ⟨fun _ => some 0, fun _ => true, fun _ => none, fun _ => true⟩

/-- C5: the extended-memory bounds checks.  (1) `bq35100_read_extended_data`
rejects addresses `0x3FFF` and `0x4400` with `-EIO` and an unchanged state —
hence no bus activity — for every device, fuel and handle state; (2) so does
`bq35100_write_extended_data`, which moreover rejects payload lengths 0 and
33 at the in-range address `0x4000` the same way; (3) the read-path
validation condition (line 432) accepts exactly the window
`0x4000..0x43FF`: it rejects `0x3FFF` and `0x4400` and accepts `0x4000` and
`0x43FF`; (4) the write-path validation condition (line 509) at an in-range
address accepts exactly the payload lengths 1..32 — in particular it rejects
0 and 33 and accepts 1 through 32; (5,6) reads of 4 bytes at the boundary
addresses `0x4000` and `0x43FF` against a well-behaved chip run to success
(returning the payload after real bus activity), and (7) a 1-byte write at
`0x4000` runs the full write protocol (address subcommand, block write,
checksum write, length write, status readback) and succeeds. -/
theorem ext_memory_bounds_validation :
    (∀ (dev : Device) (fuel : ℕ) (s : DState) (len : ℕ),
      bq35100_read_extended_data dev (fuel + 1) 0x3FFF len s =
        some (-5, [], s) ∧
      bq35100_read_extended_data dev (fuel + 1) 0x4400 len s =
        some (-5, [], s)) ∧
    (∀ (dev : Device) (fuel : ℕ) (s : DState) (data : List ℕ),
      bq35100_write_extended_data dev (fuel + 1) 0x3FFF data s =
        some (-5, s) ∧
      bq35100_write_extended_data dev (fuel + 1) 0x4400 data s =
        some (-5, s) ∧
      (data.length = 0 ∨ data.length = 33 →
        bq35100_write_extended_data dev (fuel + 1) 0x4000 data s =
          some (-5, s))) ∧
    (readExtInvalidArgs 0x3FFF = true ∧ readExtInvalidArgs 0x4400 = true ∧
     readExtInvalidArgs 0x4000 = false ∧ readExtInvalidArgs 0x43FF = false) ∧
    (∀ len, writeExtInvalidArgs 0x4000 len = false ↔ 1 ≤ len ∧ len ≤ 32) ∧
    bq35100_read_extended_data devAccept4000 30 0x4000 4 stateUnsealed =
      some (1, [1, 2, 3, 4], ⟨2, false, 0, 1, 1, 0,
        [BusEvent.ctrlWrite 0x4000, BusEvent.frameRead]⟩) ∧
    bq35100_read_extended_data devAccept43FF 30 0x43FF 4 stateUnsealed =
      some (1, [1, 2, 3, 4], ⟨2, false, 0, 1, 1, 0,
        [BusEvent.ctrlWrite 0x43FF, BusEvent.frameRead]⟩) ∧
    bq35100_write_extended_data devWriteOk 30 0x4000 [7] stateUnsealed =
      some (1, ⟨2, false, 1, 1, 0, 3,
        [BusEvent.ctrlWrite 0x4000,
         BusEvent.macWrite [0x3E, 0x00, 0x40, 7],
         BusEvent.macWrite [0x60, 184],
         BusEvent.macWrite [0x61, 5],
         BusEvent.statusRead]⟩) := by
  refine ⟨?_, ?_, by decide, ?_, by decide, by decide, by decide⟩
  · intro dev fuel s len
    constructor
    · by_cases hm : s.security_mode = BQ35100_SECURITY_UNKNOWN
      · simp [bq35100_read_extended_data, hm, EIO_errno]
      · simp [bq35100_read_extended_data, hm, readExtInvalidArgs, EIO_errno]
    · by_cases hm : s.security_mode = BQ35100_SECURITY_UNKNOWN
      · simp [bq35100_read_extended_data, hm, EIO_errno]
      · simp [bq35100_read_extended_data, hm, readExtInvalidArgs, EIO_errno]
  · intro dev fuel s data
    refine ⟨?_, ?_, ?_⟩
    · by_cases hm : s.security_mode = BQ35100_SECURITY_UNKNOWN
      · simp [bq35100_write_extended_data, hm, EIO_errno]
      · simp [bq35100_write_extended_data, hm, writeExtInvalidArgs, EIO_errno]
    · by_cases hm : s.security_mode = BQ35100_SECURITY_UNKNOWN
      · simp [bq35100_write_extended_data, hm, EIO_errno]
      · simp [bq35100_write_extended_data, hm, writeExtInvalidArgs, EIO_errno]
    · intro hlen
      by_cases hm : s.security_mode = BQ35100_SECURITY_UNKNOWN
      · simp [bq35100_write_extended_data, hm, EIO_errno]
      · have hguard : writeExtInvalidArgs 0x4000 data.length = true := by
          rcases hlen with h0 | h33
          · simp [writeExtInvalidArgs, h0]
          · simp [writeExtInvalidArgs, h33]
        simp [bq35100_write_extended_data, hm, hguard, EIO_errno]
  · intro len
    simp only [writeExtInvalidArgs]
    constructor
    · intro h
      simp only [Bool.or_eq_false_iff, decide_eq_false_iff_not] at h
      omega
    · intro h
      simp only [Bool.or_eq_false_iff, decide_eq_false_iff_not]
      norm_num
      omega

/-- Witness for C5: the theorem instantiated at a concrete device, fuel,
handle state and payloads: both out-of-range addresses are rejected with the
state unchanged, the empty and 33-byte payloads are rejected, and the length
guard accepts the concrete length 7. -/
theorem ext_memory_bounds_validation_witness :
    bq35100_read_extended_data devWriteOk 1 0x3FFF 4 stateUnsealed =
      some (-5, [], stateUnsealed) ∧
    bq35100_write_extended_data devWriteOk 1 0x4400 [7] stateUnsealed =
      some (-5, stateUnsealed) ∧
    bq35100_write_extended_data devWriteOk 1 0x4000 [] stateUnsealed =
      some (-5, stateUnsealed) ∧
    bq35100_write_extended_data devWriteOk 1 0x4000 (List.replicate 33 0)
      stateUnsealed = some (-5, stateUnsealed) ∧
    writeExtInvalidArgs 0x4000 7 = false := by
  have h := ext_memory_bounds_validation
  exact ⟨(h.1 devWriteOk 0 stateUnsealed 4).1,
         (h.2.1 devWriteOk 0 stateUnsealed [7]).2.1,
         (h.2.1 devWriteOk 0 stateUnsealed []).2.2 (Or.inl rfl),
         (h.2.1 devWriteOk 0 stateUnsealed (List.replicate 33 0)).2.2
           (Or.inr (by simp)),
         (h.2.2.2.1 7).mpr (by norm_num)⟩

/-- Witness for C10: the termination equivalence applied at the concrete
length 1 (terminating) and, via the counterexample direction, at length 255
(non-terminating). -/
theorem checksum_terminates_iff_le_254_witness :
    (∃ fuel r, bq35100_compute_checksum [5] 1 fuel = some r) ∧
    ¬ (∃ fuel r, bq35100_compute_checksum [5] 255 fuel = some r) := by
  constructor
  · exact (checksum_terminates_iff_le_254.1 [5] 1).mpr (by norm_num)
  · intro h
    have := (checksum_terminates_iff_le_254.1 [5] 255).mp h
    omega
